import Mathlib

/-!
Verification of the learning-stack infrastructure definition
(`src/misc/cdk/learning/lib/learning-stack.ts`).

The source is a single constructor that declares five cloud resource
descriptors: a VPC, two security groups, an S3 bucket whose name is the
fixed label `learning-bucket-` followed by the lowercase hex MD5 digest of
the string `learning-bucket`, and a bastion host.  We embed the descriptor
records and the constructor as pure Lean definitions, including a complete
executable MD5 so the derived bucket name can be computed inside Lean, and
prove the configuration properties of the stack.
-/

namespace Learning

/-! ## MD5 (the digest used by `crypto.createHash('md5')`) -/

/-- Addition modulo 2^32. -/
def add32 (a b : Nat) : Nat := (a + b) % 2 ^ 32

/-- Left-rotation of a 32-bit word by `n` bits (0 < n < 32 in every use). -/
def rotl32 (x n : Nat) : Nat := ((x <<< n) ||| (x >>> (32 - n))) % 2 ^ 32

/-- Bitwise complement of a 32-bit word. -/
def not32 (x : Nat) : Nat := Nat.xor x (2 ^ 32 - 1)

/-- The 64 MD5 sine-derived round constants (RFC 1321, table T). -/
def md5K : List Nat :=
  [0xd76aa478, 0xe8c7b756, 0x242070db, 0xc1bdceee,
   0xf57c0faf, 0x4787c62a, 0xa8304613, 0xfd469501,
   0x698098d8, 0x8b44f7af, 0xffff5bb1, 0x895cd7be,
   0x6b901122, 0xfd987193, 0xa679438e, 0x49b40821,
   0xf61e2562, 0xc040b340, 0x265e5a51, 0xe9b6c7aa,
   0xd62f105d, 0x02441453, 0xd8a1e681, 0xe7d3fbc8,
   0x21e1cde6, 0xc33707d6, 0xf4d50d87, 0x455a14ed,
   0xa9e3e905, 0xfcefa3f8, 0x676f02d9, 0x8d2a4c8a,
   0xfffa3942, 0x8771f681, 0x6d9d6122, 0xfde5380c,
   0xa4beea44, 0x4bdecfa9, 0xf6bb4b60, 0xbebfbc70,
   0x289b7ec6, 0xeaa127fa, 0xd4ef3085, 0x04881d05,
   0xd9d4d039, 0xe6db99e5, 0x1fa27cf8, 0xc4ac5665,
   0xf4292244, 0x432aff97, 0xab9423a7, 0xfc93a039,
   0x655b59c3, 0x8f0ccc92, 0xffeff47d, 0x85845dd1,
   0x6fa87e4f, 0xfe2ce6e0, 0xa3014314, 0x4e0811a1,
   0xf7537e82, 0xbd3af235, 0x2ad7d2bb, 0xeb86d391]

/-- The 64 MD5 per-round left-rotation amounts. -/
def md5S : List Nat :=
  [7, 12, 17, 22, 7, 12, 17, 22, 7, 12, 17, 22, 7, 12, 17, 22,
   5, 9, 14, 20, 5, 9, 14, 20, 5, 9, 14, 20, 5, 9, 14, 20,
   4, 11, 16, 23, 4, 11, 16, 23, 4, 11, 16, 23, 4, 11, 16, 23,
   6, 10, 15, 21, 6, 10, 15, 21, 6, 10, 15, 21, 6, 10, 15, 21]

/-- The four 32-bit chaining words of the MD5 state. -/
structure MD5State where
  a : Nat
  b : Nat
  c : Nat
  d : Nat
deriving DecidableEq

/-- The MD5 initialization vector. -/
def md5Init : MD5State := ⟨0x67452301, 0xefcdab89, 0x98badcfe, 0x10325476⟩

/-- The `n` low-order bytes of `v`, least significant first. -/
def bytesLE : Nat → Nat → List Nat
  | 0, _ => []
  | m + 1, v => (v % 256) :: bytesLE m (v / 256)

/-- Group a byte list into little-endian 32-bit words. -/
def toWordsLE : List Nat → List Nat
  | b0 :: b1 :: b2 :: b3 :: rest =>
      (b0 + b1 * 256 + b2 * 65536 + b3 * 16777216) :: toWordsLE rest
  | _ => []

/-- One MD5 round on message words `m` at round index `i`. -/
def md5Round (m : List Nat) (st : MD5State) (i : Nat) : MD5State :=
  let fg :=
    if i < 16 then (((st.b &&& st.c) ||| (not32 st.b &&& st.d)), i)
    else if i < 32 then (((st.d &&& st.b) ||| (not32 st.d &&& st.c)), (5 * i + 1) % 16)
    else if i < 48 then ((Nat.xor (Nat.xor st.b st.c) st.d), (3 * i + 5) % 16)
    else ((Nat.xor st.c (st.b ||| not32 st.d)), (7 * i) % 16)
  let f := add32 (add32 (add32 fg.1 st.a) (md5K.getD i 0)) (m.getD fg.2 0)
  ⟨st.d, add32 st.b (rotl32 f (md5S.getD i 0)), st.b, st.c⟩

/-- Compress one 64-byte block into the chaining state. -/
def md5Block (st : MD5State) (block : List Nat) : MD5State :=
  let m := toWordsLE block
  let r := (List.range 64).foldl (md5Round m) st
  ⟨add32 st.a r.a, add32 st.b r.b, add32 st.c r.c, add32 st.d r.d⟩

/-- MD5 padding: a 0x80 byte, zeros to 56 mod 64, then the 64-bit
little-endian bit length. -/
def md5Pad (msg : List Nat) : List Nat :=
  let len := msg.length
  let zeros := (64 + 56 - (len + 1) % 64) % 64
  msg ++ [0x80] ++ List.replicate zeros 0 ++ bytesLE 8 ((8 * len) % 2 ^ 64)

/-- Fold the compression function over successive 64-byte blocks; the fuel
argument (instantiated with the padded length) bounds the recursion. -/
def md5Chunks : Nat → MD5State → List Nat → MD5State
  | _, st, [] => st
  | 0, st, _ => st
  | n + 1, st, l => md5Chunks n (md5Block st (l.take 64)) (l.drop 64)

/-- The MD5 digest state of a byte-list message. -/
def md5 (msg : List Nat) : MD5State :=
  let padded := md5Pad msg
  md5Chunks padded.length md5Init padded

/-- The lowercase hex character for a nibble. -/
def hexDigit (n : Nat) : Char :=
  if n < 10 then Char.ofNat (48 + n) else Char.ofNat (87 + n)

/-- Two lowercase hex characters for a byte. -/
def byteHex (b : Nat) : List Char := [hexDigit (b / 16), hexDigit (b % 16)]

/-- The lowercase hexadecimal MD5 digest of a byte-list message, digest
words emitted little-endian as in `hash.digest('hex')`. -/
def md5Hex (msg : List Nat) : String :=
  let st := md5 msg
  ⟨((bytesLE 4 st.a ++ bytesLE 4 st.b ++ bytesLE 4 st.c ++ bytesLE 4 st.d).map byteHex).flatten⟩

/-- The bytes of an ASCII string (UTF-8 agrees with this on the ASCII
label hashed by the stack). -/
def asciiBytes (s : String) : List Nat := s.data.map Char.toNat

/-! ## Descriptor records for the declared resources -/

/-- Identifiers for the five constructs the stack creates; object
references between descriptors are these identifiers. -/
inductive ResourceId
  | vpc
  | bastionSg
  | allowFromBastionSg
  | bucket
  | bastion
deriving DecidableEq

/-- The kind of cloud resource a construct declares. -/
inductive ResourceKind
  | network
  | securityGroup
  | storageBucket
  | computeInstance
deriving DecidableEq

/-- Which kind of resource each construct is. -/
def kindOf : ResourceId → ResourceKind
  | ResourceId.vpc => ResourceKind.network
  | ResourceId.bastionSg => ResourceKind.securityGroup
  | ResourceId.allowFromBastionSg => ResourceKind.securityGroup
  | ResourceId.bucket => ResourceKind.storageBucket
  | ResourceId.bastion => ResourceKind.computeInstance

/-- Subnet types of the ec2 library (`ec2.SubnetType`). -/
inductive SubnetType
  | PUBLIC
  | PRIVATE_WITH_EGRESS
  | PRIVATE_ISOLATED
deriving DecidableEq

/-- One entry of a VPC's `subnetConfiguration`. -/
structure SubnetConfigurationProps where
  cidrMask : Nat
  name : String
  subnetType : SubnetType
  mapPublicIpOnLaunch : Bool
deriving DecidableEq

/-- The VPC descriptor (`new ec2.Vpc(...)` props). -/
structure VpcDescriptor where
  cidr : String
  maxAzs : Nat
  subnetConfiguration : List SubnetConfigurationProps
deriving DecidableEq

/-- The source of an ingress rule: either an object reference to another
construct (as when a `SecurityGroup` value is passed as the peer) or a
plain textual peer such as a CIDR block or a group name string. -/
inductive Peer
  | securityGroupRef : ResourceId → Peer
  | cidrIp : String → Peer
  | groupName : String → Peer
deriving DecidableEq

/-- A port selection (`ec2.Port`). -/
inductive Port
  | tcp : Nat → Port
  | udp : Nat → Port
  | allTraffic
deriving DecidableEq

/-- One ingress rule of a security group. -/
structure IngressRule where
  peer : Peer
  connection : Port
deriving DecidableEq

/-- A security group descriptor (`new ec2.SecurityGroup(...)`); a fresh
group starts with no ingress rules. -/
structure SecurityGroupDescriptor where
  securityGroupName : String
  vpc : ResourceId
  ingressRules : List IngressRule
deriving DecidableEq

/-- `sg.addIngressRule(peer, connection)`: append one ingress rule. -/
def SecurityGroupDescriptor.addIngressRule (sg : SecurityGroupDescriptor)
    (peer : Peer) (connection : Port) : SecurityGroupDescriptor :=
  { sg with ingressRules := sg.ingressRules ++ [⟨peer, connection⟩] }

/-- Removal policies (`cdk.RemovalPolicy`). -/
inductive RemovalPolicy
  | DESTROY
  | RETAIN
deriving DecidableEq

/-- The S3 bucket descriptor (`new s3.Bucket(...)` props). -/
structure BucketDescriptor where
  bucketName : String
  removalPolicy : RemovalPolicy
  autoDeleteObjects : Bool
deriving DecidableEq

/-- EC2 instance classes used or usable here (`ec2.InstanceClass`). -/
inductive InstanceClass
  | C7I
  | T3
  | M5
deriving DecidableEq

/-- EC2 instance sizes used or usable here (`ec2.InstanceSize`). -/
inductive InstanceSize
  | XLARGE2
  | MICRO
  | LARGE
deriving DecidableEq

/-- An instance type as produced by `ec2.InstanceType.of`. -/
structure InstanceType where
  instanceClass : InstanceClass
  instanceSize : InstanceSize
deriving DecidableEq

/-- `ec2.InstanceType.of(class, size)`. -/
def InstanceType.of (c : InstanceClass) (s : InstanceSize) : InstanceType := ⟨c, s⟩

/-- The API name of an instance class. -/
def InstanceClass.apiName : InstanceClass → String
  | InstanceClass.C7I => "c7i"
  | InstanceClass.T3 => "t3"
  | InstanceClass.M5 => "m5"

/-- The API name of an instance size. -/
def InstanceSize.apiName : InstanceSize → String
  | InstanceSize.XLARGE2 => "2xlarge"
  | InstanceSize.MICRO => "micro"
  | InstanceSize.LARGE => "large"

/-- The API shape string of an instance type, e.g. `c7i.2xlarge`. -/
def InstanceType.apiName (t : InstanceType) : String :=
  t.instanceClass.apiName ++ "." ++ t.instanceSize.apiName

/-- An EBS block device volume (`ec2.BlockDeviceVolume.ebs(size)`). -/
structure BlockDeviceVolume where
  volumeSize : Nat
deriving DecidableEq

/-- `ec2.BlockDeviceVolume.ebs(size)`. -/
def BlockDeviceVolume.ebs (n : Nat) : BlockDeviceVolume := ⟨n⟩

/-- One block-device mapping of an instance. -/
structure BlockDevice where
  deviceName : String
  volume : BlockDeviceVolume
deriving DecidableEq

/-- The IAM role attached to the bastion host, as the list of managed
policy names this code attaches to it. -/
structure Role where
  managedPolicies : List String
deriving DecidableEq

/-- `role.addManagedPolicy(ManagedPolicy.fromAwsManagedPolicyName(p))`. -/
def Role.addManagedPolicy (r : Role) (p : String) : Role :=
  { r with managedPolicies := r.managedPolicies ++ [p] }

/-- The bastion host descriptor (`new ec2.BastionHostLinux(...)`). -/
structure BastionHostDescriptor where
  vpc : ResourceId
  instanceName : String
  instanceType : InstanceType
  securityGroup : ResourceId
  blockDevices : List BlockDevice
  role : Role
deriving DecidableEq

/-- Stack-level properties (`cdk.StackProps`); consumed by the framework
`super(...)` call and never read by this constructor. -/
structure StackProps where
  description : Option String := none
  stackName : Option String := none
deriving DecidableEq

/-- The descriptor tree the constructor builds: the five resource
descriptors plus the order in which the constructs were created. -/
structure LearningStack where
  vpc : VpcDescriptor
  bastionSg : SecurityGroupDescriptor
  allowFromBastionSg : SecurityGroupDescriptor
  bucket : BucketDescriptor
  bastion : BastionHostDescriptor
  creationOrder : List ResourceId
deriving DecidableEq

/-- The `LearningStack` constructor, line for line: the Vpc, the
`from-bastion` group, the `allow-from-bastion` group and its single
ingress rule, the md5-named bucket, the bastion host, and the
`AdministratorAccess` policy attachment on the bastion's role.  The
`scope`, `id` and `props` arguments are passed to the framework's
`super(...)` and never read here. -/
def LearningStack.construct (scope : String) (id : String)
    (props : Option StackProps) : LearningStack :=
  let vpc : VpcDescriptor :=
    { cidr := "10.0.0.0/16"
      maxAzs := 1
      subnetConfiguration :=
        [{ cidrMask := 24
           name := "Public"
           subnetType := SubnetType.PUBLIC
           mapPublicIpOnLaunch := false }] }
  let bastionSg : SecurityGroupDescriptor :=
    { securityGroupName := "from-bastion"
      vpc := ResourceId.vpc
      ingressRules := [] }
  let allowFromBastionSg0 : SecurityGroupDescriptor :=
    { securityGroupName := "allow-from-bastion"
      vpc := ResourceId.vpc
      ingressRules := [] }
  let allowFromBastionSg :=
    allowFromBastionSg0.addIngressRule
      (Peer.securityGroupRef ResourceId.bastionSg)
      (Port.tcp 22)
  let bucket : BucketDescriptor :=
    { bucketName := "learning-bucket-" ++ md5Hex (asciiBytes "learning-bucket")
      removalPolicy := RemovalPolicy.DESTROY
      autoDeleteObjects := true }
  let bastion0 : BastionHostDescriptor :=
    { vpc := ResourceId.vpc
      instanceName := "bastion"
      instanceType := InstanceType.of InstanceClass.C7I InstanceSize.XLARGE2
      securityGroup := ResourceId.bastionSg
      blockDevices := [{ deviceName := "/dev/xvda", volume := BlockDeviceVolume.ebs 30 }]
      role := { managedPolicies := [] } }
  let bastion := { bastion0 with role := bastion0.role.addManagedPolicy "AdministratorAccess" }
  { vpc := vpc
    bastionSg := bastionSg
    allowFromBastionSg := allowFromBastionSg
    bucket := bucket
    bastion := bastion
    creationOrder :=
      [ResourceId.vpc, ResourceId.bastionSg, ResourceId.allowFromBastionSg,
       ResourceId.bucket, ResourceId.bastion] }

/-! ## Dependency edges between the descriptors -/

/-- The construct references held by an ingress-rule peer. -/
def peerDeps : Peer → List ResourceId
  | Peer.securityGroupRef r => [r]
  | Peer.cidrIp _ => []
  | Peer.groupName _ => []

/-- The construct references held by a security-group descriptor: its
owning VPC and every object reference in its ingress rules. -/
def sgDeps (sg : SecurityGroupDescriptor) : List ResourceId :=
  sg.vpc :: (sg.ingressRules.map (fun r => peerDeps r.peer)).flatten

/-- The construct references each resource descriptor of the stack holds:
its outgoing dependency edges. -/
def deps (st : LearningStack) : ResourceId → List ResourceId
  | ResourceId.vpc => []
  | ResourceId.bastionSg => sgDeps st.bastionSg
  | ResourceId.allowFromBastionSg => sgDeps st.allowFromBastionSg
  | ResourceId.bucket => []
  | ResourceId.bastion => [st.bastion.vpc, st.bastion.securityGroup]

/-- Every dependency of every resource appears strictly earlier in the
creation order: the dependency edges are resolvable without cycles. -/
def depsResolvable (st : LearningStack) : Bool :=
  st.creationOrder.all fun r =>
    (deps st r).all fun d =>
      st.creationOrder.indexOf d < st.creationOrder.indexOf r

/-- Every resource of the creation order (from the second on) depends on
the resource created immediately before it. -/
def chainDependent (st : LearningStack) : Bool :=
  (List.range (st.creationOrder.length - 1)).all fun k =>
    (deps st (st.creationOrder.getD (k + 1) ResourceId.vpc)).contains
      (st.creationOrder.getD k ResourceId.vpc)

/-! ## Theorems settling the claims -/

set_option maxRecDepth 20000

/-- The constructor never reads its `scope`, `id` or `props` arguments
(they are consumed by the framework's `super` call), so any two
invocations build the same descriptor tree. -/
theorem construct_args_irrelevant (scope id : String) (props : Option StackProps) :
    LearningStack.construct scope id props = LearningStack.construct "" "" none := rfl

/-- C1: for every invocation of the stack constructor, the bucket's name is
the fixed label `learning-bucket-` concatenated with the lowercase hex MD5
digest of the string `learning-bucket`; that digest concretely evaluates to
`c518d6b29ae8835e70c5573e0073f8fe`, so the name is the same fixed string —
byte-identical across any two invocations. -/
theorem bucket_name_md5_deterministic (scope scope2 id id2 : String)
    (props props2 : Option StackProps) :
    (LearningStack.construct scope id props).bucket.bucketName
        = "learning-bucket-" ++ md5Hex (asciiBytes "learning-bucket")
    ∧ (LearningStack.construct scope id props).bucket.bucketName
        = "learning-bucket-c518d6b29ae8835e70c5573e0073f8fe"
    ∧ (LearningStack.construct scope id props).bucket.bucketName
        = (LearningStack.construct scope2 id2 props2).bucket.bucketName := by
  rw [construct_args_irrelevant scope id props,
    construct_args_irrelevant scope2 id2 props2]
  exact ⟨rfl, by decide, rfl⟩

/-- C2: after construction the `allow-from-bastion` security group's ingress
rule list is exactly one rule whose peer is the object reference to the
bastion security group (not a name string or CIDR) and whose connection is
TCP port 22 — no other ports or sources. -/
theorem allow_from_bastion_single_ingress (scope id : String)
    (props : Option StackProps) :
    (LearningStack.construct scope id props).allowFromBastionSg.securityGroupName
        = "allow-from-bastion"
    ∧ (LearningStack.construct scope id props).allowFromBastionSg.ingressRules
        = [⟨Peer.securityGroupRef ResourceId.bastionSg, Port.tcp 22⟩] := by
  exact ⟨rfl, rfl⟩

/-- C3: the `from-bastion` security group ends construction with zero
ingress rules; since `addIngressRule` always leaves the rule list nonempty,
no add operation was ever performed on this group. -/
theorem bastion_sg_no_ingress (scope id : String) (props : Option StackProps) :
    (LearningStack.construct scope id props).bastionSg.securityGroupName
        = "from-bastion"
    ∧ (LearningStack.construct scope id props).bastionSg.ingressRules = []
    ∧ ∀ (sg : SecurityGroupDescriptor) (p : Peer) (c : Port),
        (sg.addIngressRule p c).ingressRules ≠ [] := by
  refine ⟨rfl, rfl, fun sg p c h => ?_⟩
  simpa [SecurityGroupDescriptor.addIngressRule] using congrArg List.length h

/-- C4: after construction, the bastion host's attached role holds the
managed policy named `AdministratorAccess`. -/
theorem bastion_role_admin_policy (scope id : String) (props : Option StackProps) :
    "AdministratorAccess"
      ∈ (LearningStack.construct scope id props).bastion.role.managedPolicies := by
  rw [construct_args_irrelevant scope id props]
  decide

/-- C5: the bucket descriptor has removal policy DESTROY and its
auto-delete-objects flag set to true. -/
theorem bucket_destroy_auto_delete (scope id : String) (props : Option StackProps) :
    (LearningStack.construct scope id props).bucket.removalPolicy
        = RemovalPolicy.DESTROY
    ∧ (LearningStack.construct scope id props).bucket.autoDeleteObjects = true := by
  exact ⟨rfl, rfl⟩

/-- C6: the network descriptor has CIDR 10.0.0.0/16, at most 1 availability
zone, and exactly one subnet group: public, /24 mask, named `Public`, with
public-IP auto-assignment disabled. -/
theorem vpc_shape (scope id : String) (props : Option StackProps) :
    (LearningStack.construct scope id props).vpc.cidr = "10.0.0.0/16"
    ∧ (LearningStack.construct scope id props).vpc.maxAzs = 1
    ∧ (LearningStack.construct scope id props).vpc.subnetConfiguration
        = [{ cidrMask := 24
             name := "Public"
             subnetType := SubnetType.PUBLIC
             mapPublicIpOnLaunch := false }] := by
  exact ⟨rfl, rfl, rfl⟩

/-- C7: the bastion host descriptor has instance name `bastion`, is placed
in the stack's network, references the bastion security group (whose name
is `from-bastion`), and declares exactly one block device: a 30-unit EBS
volume on device `/dev/xvda`. -/
theorem bastion_host_shape (scope id : String) (props : Option StackProps) :
    (LearningStack.construct scope id props).bastion.instanceName = "bastion"
    ∧ (LearningStack.construct scope id props).bastion.vpc = ResourceId.vpc
    ∧ (LearningStack.construct scope id props).bastion.securityGroup
        = ResourceId.bastionSg
    ∧ (LearningStack.construct scope id props).bastionSg.securityGroupName
        = "from-bastion"
    ∧ (LearningStack.construct scope id props).bastion.blockDevices
        = [{ deviceName := "/dev/xvda", volume := BlockDeviceVolume.ebs 30 }] := by
  exact ⟨rfl, rfl, rfl, rfl, rfl⟩

/-- C8: constructing the stack with no stack-level properties yields a
descriptor tree with exactly one network, exactly two security groups,
exactly one storage bucket and exactly one compute instance, and every
dependency edge points to a strictly earlier resource in the creation
order, so the edges are resolvable without cycles. -/
theorem stack_counts_and_acyclic (scope id : String) :
    ((LearningStack.construct scope id none).creationOrder.filter
        (fun r => kindOf r == ResourceKind.network)).length = 1
    ∧ ((LearningStack.construct scope id none).creationOrder.filter
        (fun r => kindOf r == ResourceKind.securityGroup)).length = 2
    ∧ ((LearningStack.construct scope id none).creationOrder.filter
        (fun r => kindOf r == ResourceKind.storageBucket)).length = 1
    ∧ ((LearningStack.construct scope id none).creationOrder.filter
        (fun r => kindOf r == ResourceKind.computeInstance)).length = 1
    ∧ depsResolvable (LearningStack.construct scope id none) = true := by
  rw [construct_args_irrelevant scope id none]
  decide

/-- C9 counterexample: at a concrete invocation, the creation order is
network, bastion group, internal group, bucket, bastion host, but the chain
of immediate-predecessor dependencies fails: the bucket does not depend on
the internal security group created just before it, and the bastion host
does not depend on the bucket created just before it. -/
theorem creation_order_chain_counterexample :
    (LearningStack.construct "app" "LearningStack" none).creationOrder
        = [ResourceId.vpc, ResourceId.bastionSg, ResourceId.allowFromBastionSg,
           ResourceId.bucket, ResourceId.bastion]
    ∧ chainDependent (LearningStack.construct "app" "LearningStack" none) = false
    ∧ ResourceId.allowFromBastionSg
        ∉ deps (LearningStack.construct "app" "LearningStack" none) ResourceId.bucket
    ∧ ResourceId.bucket
        ∉ deps (LearningStack.construct "app" "LearningStack" none) ResourceId.bastion := by
  decide

/-- C9 amended: the constructor creates the five resources in the order
network, bastion security group, internal security group, storage bucket,
bastion host; the bastion security group depends on the network, the
internal security group on the network and the bastion security group, and
the bastion host on the network and the bastion security group, while the
storage bucket depends on nothing — so not every resource depends on its
immediate predecessor. -/
theorem creation_order_actual_deps (scope id : String) (props : Option StackProps) :
    (LearningStack.construct scope id props).creationOrder
        = [ResourceId.vpc, ResourceId.bastionSg, ResourceId.allowFromBastionSg,
           ResourceId.bucket, ResourceId.bastion]
    ∧ deps (LearningStack.construct scope id props) ResourceId.vpc = []
    ∧ deps (LearningStack.construct scope id props) ResourceId.bastionSg
        = [ResourceId.vpc]
    ∧ deps (LearningStack.construct scope id props) ResourceId.allowFromBastionSg
        = [ResourceId.vpc, ResourceId.bastionSg]
    ∧ deps (LearningStack.construct scope id props) ResourceId.bucket = []
    ∧ deps (LearningStack.construct scope id props) ResourceId.bastion
        = [ResourceId.vpc, ResourceId.bastionSg] := by
  rw [construct_args_irrelevant scope id props]
  decide

/-- C10: for every invocation of the constructor, the bastion host's
instance type is the fixed constant pair of class C7I at size XLARGE2,
whose API shape string is `c7i.2xlarge`. -/
theorem instance_type_fixed (scope id : String) (props : Option StackProps) :
    (LearningStack.construct scope id props).bastion.instanceType
        = InstanceType.of InstanceClass.C7I InstanceSize.XLARGE2
    ∧ (LearningStack.construct scope id props).bastion.instanceType.apiName
        = "c7i.2xlarge" := by
  exact ⟨rfl, rfl⟩

end Learning
